import Mathlib

/-
Shallow embedding of the OCDM PlayReady Nexus SVP trust-core subsystem
(src/MediaSystem.cpp, class CDMi::PlayReady). External DRM/Nexus library
calls are modelled as oracle parameters (their results are inputs of the
embedded functions); the control flow, result codes and state mutations of
the member functions themselves are translated from the source.
-/

namespace PlayReadyModel

/-- CDMi result codes as used in MediaSystem.cpp (CDMi_SUCCESS / CDMi_S_FALSE). -/
inductive CDMi_RESULT where
  | CDMi_SUCCESS
  | CDMi_S_FALSE
deriving DecidableEq, Repr

/-- DRM result codes appearing in MediaSystem.cpp. DRM_SUCCESS is the only
success code returned by the called APIs; every DRM_E code is a failure
code (negative as a signed HRESULT-style value). Unlisted failure codes are
represented by DRM_E_FAIL with a tag. -/
inductive DRM_RESULT where
  | DRM_SUCCESS
  | DRM_E_NOMORE
  | DRM_E_SECURETIME_CLOCK_NOT_SET
  | DRM_E_TEE_PROVISIONING_REQUIRED
  | DRM_E_CLK_NOT_SUPPORTED
  | DRM_E_OUTOFMEMORY
  | DRM_E_FAIL (code : Nat)
deriving DecidableEq, Repr

/-- DRM_FAILED(dr) tests for a failure code; of the codes used here exactly
DRM_SUCCESS is non-failing. -/
def DRM_FAILED (dr : DRM_RESULT) : Bool :=
  dr != DRM_RESULT.DRM_SUCCESS

/-- sizeof(DRM_ID.rgb): a secure-stop session id is a fixed 16-byte token. -/
def DRM_ID_SIZE : Nat := 16

/-- const uint32_t NONCE_STORE_SIZE = 100 (ledger capacity reported via
GetLdlSessionLimit). -/
def NONCE_STORE_SIZE : Nat := 100

/-- GetLdlSessionLimit() returns NONCE_STORE_SIZE. -/
def GetLdlSessionLimit : Nat := NONCE_STORE_SIZE

/-! ## CommitSecureStop (MediaSystem.cpp lines 441-496)

The ledger of pending secure stops lives inside the DRM store and is only
touched through Drm_SecureStop_ProcessResponse, modelled as an oracle that
maps the ledger before the call to a DRM result plus the ledger after the
call. The embedding records whether that call was made, the final ledger,
and the returned CDMi result. -/

/-- Observable outcome of one CommitSecureStop call. -/
structure CommitOutcome where
  cr : CDMi_RESULT
  processResponseCalled : Bool
  ledgerAfter : List (List Nat)
deriving Repr

/-- CommitSecureStop: cr starts as CDMi_SUCCESS; an empty session id or an
empty server response sets cr to CDMi_S_FALSE; only when cr is still
CDMi_SUCCESS is Drm_SecureStop_ProcessResponse invoked, and its result dr
is merely logged on failure - cr is not modified afterwards. -/
def CommitSecureStop (sessionIDLength serverResponseLength : Nat)
    (ledger : List (List Nat))
    (processResponse : List (List Nat) → DRM_RESULT × List (List Nat)) :
    CommitOutcome :=
  let cr := CDMi_RESULT.CDMi_SUCCESS
  let cr := if sessionIDLength = 0 then CDMi_RESULT.CDMi_S_FALSE else cr
  let cr := if serverResponseLength = 0 then CDMi_RESULT.CDMi_S_FALSE else cr
  if cr = CDMi_RESULT.CDMi_SUCCESS then
    let pr := processResponse ledger
    { cr := cr, processResponseCalled := true, ledgerAfter := pr.2 }
  else
    { cr := cr, processResponseCalled := false, ledgerAfter := ledger }

/-! ## DeinitializeSystem (MediaSystem.cpp lines 246-264) -/

/-- Observable actions of one DeinitializeSystem call, plus the app-context
state afterwards. -/
structure DeinitTrace where
  cleanupStoreCalled : Bool
  drmUninitializeCalled : Bool
  platformUninitializeCalled : Bool
  appContextAfter : Bool
deriving DecidableEq, Repr

/-- DeinitializeSystem: when m_poAppContext is live it runs
Drm_StoreMgmt_CleanupStore, Drm_Uninitialize and resets the context; in
every case it then calls Drm_Platform_Uninitialize (the call sits outside
the if block). -/
def DeinitializeSystem (appContext : Bool) : DeinitTrace :=
  if appContext then
    { cleanupStoreCalled := true, drmUninitializeCalled := true,
      platformUninitializeCalled := true, appContextAfter := false }
  else
    { cleanupStoreCalled := false, drmUninitializeCalled := false,
      platformUninitializeCalled := true, appContextAfter := false }

/-! ## CreateMediaKeySession (MediaSystem.cpp lines 266-293) -/

/-- Actions CreateMediaKeySession can perform, in order. -/
inductive SessionAction where
  | initializeSystem
  | allocateSession
deriving DecidableEq, Repr

/-- CreateMediaKeySession: if the store file at m_storeLocation does not
exist, InitializeSystem() is re-run first; then a MediaKeySession is
allocated and CDMi_SUCCESS is returned unconditionally. -/
def CreateMediaKeySession (storeFileExists : Bool) :
    List SessionAction × CDMi_RESULT :=
  if storeFileExists then
    ([SessionAction.allocateSession], CDMi_RESULT.CDMi_SUCCESS)
  else
    ([SessionAction.initializeSystem, SessionAction.allocateSession],
     CDMi_RESULT.CDMi_SUCCESS)

/-! ## GetSecureStopIds (MediaSystem.cpp lines 365-399)

Drm_SecureStop_EnumerateSessions is an oracle returning a DRM result and
the enumerated session ids (count is the length of that list, as the call
sets count and the array together). The byte stores done by the copy loop
`memcpy(&ids[i * DRM_ID_SIZE], ssSessionIds[i].rgb, DRM_ID_SIZE)` are
recorded as a list of (offset into ids, byte value) pairs. The idsLength
parameter is taken by the function but never read by the body. -/

/-- Observable outcome of one GetSecureStopIds call. -/
structure StopIdsOutcome where
  cr : CDMi_RESULT
  count : Nat
  writes : List (Nat × Nat)
deriving DecidableEq, Repr

/-- Byte stores of the copy loop: entry i of the enumerated ids is copied
to offsets i * DRM_ID_SIZE .. i * DRM_ID_SIZE + 15 of the ids buffer. -/
def copyIds : Nat → List (List Nat) → List (Nat × Nat)
  | _, [] => []
  | i, id :: rest =>
      (id.enum.map (fun q => (i * DRM_ID_SIZE + q.1, q.2))) ++ copyIds (i + 1) rest

/-- GetSecureStopIds: on an enumeration result other than DRM_SUCCESS or
DRM_E_NOMORE, cr becomes CDMi_S_FALSE and nothing is copied; otherwise the
loop copies all count entries, DRM_ID_SIZE bytes each, into ids starting at
offset 0. The idsLength argument is never consulted. -/
def GetSecureStopIds (idsLength : Nat)
    (enumerateSessions : DRM_RESULT × List (List Nat)) : StopIdsOutcome :=
  let dr := enumerateSessions.1
  let ssSessionIds := enumerateSessions.2
  let count := ssSessionIds.length
  let _ := idsLength
  if dr ≠ DRM_RESULT.DRM_SUCCESS ∧ dr ≠ DRM_RESULT.DRM_E_NOMORE then
    { cr := CDMi_RESULT.CDMi_S_FALSE, count := count, writes := [] }
  else
    { cr := CDMi_RESULT.CDMi_SUCCESS, count := count,
      writes := copyIds 0 ssSessionIds }

/-! ## GetSecureStop (MediaSystem.cpp lines 401-439)

Drm_SecureStop_GenerateChallenge is an oracle returning a DRM result and
the challenge size (a DRM_DWORD). rawSize is a uint16_t reference: the
incoming value is below 2 to the 16, and the store `rawSize =
ssChallengeSize` truncates the DRM_DWORD to 16 bits. -/

/-- Observable outcome of one GetSecureStop call. -/
structure GetStopOutcome where
  cr : CDMi_RESULT
  copiedToRawData : Bool
  copiedBytes : Nat
  rawSizeAfter : Nat
deriving DecidableEq, Repr

/-- GetSecureStop: on a challenge-generation failure cr becomes
CDMi_S_FALSE and rawSize is untouched; on success the challenge is copied
out only when rawData is non-null and rawSize is at least the challenge
size, and in either case rawSize is overwritten with the challenge size
truncated to uint16_t. -/
def GetSecureStop (rawDataNull : Bool) (rawSize : Nat)
    (generateChallenge : DRM_RESULT × Nat) : GetStopOutcome :=
  let dr := generateChallenge.1
  let ssChallengeSize := generateChallenge.2
  if dr ≠ DRM_RESULT.DRM_SUCCESS then
    { cr := CDMi_RESULT.CDMi_S_FALSE, copiedToRawData := false,
      copiedBytes := 0, rawSizeAfter := rawSize }
  else if ¬ rawDataNull ∧ ssChallengeSize ≤ rawSize then
    { cr := CDMi_RESULT.CDMi_SUCCESS, copiedToRawData := true,
      copiedBytes := ssChallengeSize,
      rawSizeAfter := ssChallengeSize % 2 ^ 16 }
  else
    { cr := CDMi_RESULT.CDMi_SUCCESS, copiedToRawData := false,
      copiedBytes := 0, rawSizeAfter := ssChallengeSize % 2 ^ 16 }

/-! ## InitSecureClock redirect loop (MediaSystem.cpp lines 600-633)

After the initial forward-link petition yields petRespCode, the do/while
loop inspects it: 200 exits the loop, 301/302 re-petitions via
PRDY_HTTP_Client_GetSecureTimeUrl (modelled as an oracle giving, for the
i-th such call, its return code and the new petRespCode), any other code
fails with rc = -1. The loop body contains no hop counter; the fuel
argument only lets the model observe finite prefixes of the execution -
a result of none means the loop is still running after that many
iterations. -/

/-- How the redirect loop can exit. -/
inductive RedirectOutcome where
  | proceed
  | petitionFailed (rc : Int)
  | unsupportedCode
deriving DecidableEq, Repr

/-- Redirect-follow loop of InitSecureClock, observed for a bounded number
of iterations: petRespCode is the current petition response code, i counts
the GetSecureTimeUrl calls already made, and none means the loop has not
exited within the given number of iterations. -/
def redirectLoop (responses : Nat → Int × Nat) :
    Nat → Nat → Nat → Option RedirectOutcome
  | _, _, 0 => none
  | petRespCode, i, fuel + 1 =>
      if petRespCode = 200 then some RedirectOutcome.proceed
      else if petRespCode = 302 ∨ petRespCode = 301 then
        let r := responses i
        if r.1 ≠ 0 then some (RedirectOutcome.petitionFailed r.1)
        else redirectLoop responses r.2 (i + 1) fuel
      else some RedirectOutcome.unsupportedCode

/-! ## LoadRevocationList (MediaSystem.cpp lines 498-552) -/

/-- LoadRevocationList: a missing file (fopen returns null) is success;
a failed BKNI_Malloc or a failed Drm_Revocation_StorePackage jumps to
ErrorExit and returns false; otherwise the package is applied and the
function returns true. -/
def LoadRevocationList (fileExists : Bool) (mallocOk : Bool)
    (storePackage : DRM_RESULT) : Bool :=
  if ¬ fileExists then true
  else if ¬ mallocOk then false
  else if DRM_FAILED storePackage then false
  else true

/-! ## CreateSystemExt (MediaSystem.cpp lines 687-815)

The DRM library calls made by CreateSystemExt are oracles collected in an
environment record; the goto ErrorExit chains of the source are expressed
by tail calls into extErrorExit carrying the value dr has at the jump.
InitSecureClock is a member of this file as well; here only its integer
return code matters (the source tests it against 0), so the environment
carries that code - its internal redirect behaviour is modelled separately
by redirectLoop. The outcome records the returned CDMi result, whether
m_poAppContext is still live, which clock strategy ran, and the wall-clock
seed handed to Drm_AntiRollBackClock_Init when the anti-rollback path ran. -/

/-- Results of the external calls CreateSystemExt makes, in program order. -/
structure Env where
  drmInitialize : DRM_RESULT
  secureTimeGetValue : DRM_RESULT
  initSecureClockRc : Int
  antiRollbackInitRc : Int
  resizeStore : DRM_RESULT
  revocationSupported : Bool
  revBufferAllocOk : Bool
  revocationSetBuffer : DRM_RESULT
  loadRevocationListOk : Bool
  contentSetProperty : DRM_RESULT
deriving DecidableEq, Repr

/-- Observable outcome of one CreateSystemExt call. -/
structure ExtOutcome where
  cr : CDMi_RESULT
  appContext : Bool
  ranSecureClockBootstrap : Bool
  ranAntiRollback : Bool
  antiRollbackSeed : Option Nat
deriving DecidableEq, Repr

/-- The ErrorExit label of CreateSystemExt: every path falls through or
jumps here with some current dr; only when DRM_FAILED(dr) does it reset
m_poAppContext and set cr to CDMi_S_FALSE - otherwise the context created
at the top of the function stays live and cr is still CDMi_SUCCESS. -/
def extErrorExit (dr : DRM_RESULT) (ranSC ranAR : Bool) (seed : Option Nat) :
    ExtOutcome :=
  if DRM_FAILED dr then
    { cr := CDMi_RESULT.CDMi_S_FALSE, appContext := false,
      ranSecureClockBootstrap := ranSC, ranAntiRollback := ranAR,
      antiRollbackSeed := seed }
  else
    { cr := CDMi_RESULT.CDMi_SUCCESS, appContext := true,
      ranSecureClockBootstrap := ranSC, ranAntiRollback := ranAR,
      antiRollbackSeed := seed }

/-- Tail of CreateSystemExt after the revocation section: ChkDR on
Drm_Content_SetProperty, then fall through to ErrorExit. -/
def extSetProperty (env : Env) (ranSC ranAR : Bool) (seed : Option Nat) :
    ExtOutcome :=
  extErrorExit env.contentSetProperty ranSC ranAR seed

/-- Middle of CreateSystemExt after the clock section:
Drm_ResizeInMemoryLicenseStore, then the revocation block (buffer
allocation via ChkMem, Drm_Revocation_SetBuffer via ChkDR, then
LoadRevocationList whose false result jumps to ErrorExit while dr still
holds the non-failed Drm_Revocation_SetBuffer result), then the
decryption-mode property. -/
def extAfterClock (env : Env) (ranSC ranAR : Bool) (seed : Option Nat) :
    ExtOutcome :=
  let dr := env.resizeStore
  if DRM_FAILED dr then extErrorExit dr ranSC ranAR seed
  else if env.revocationSupported then
    if ¬ env.revBufferAllocOk then
      extErrorExit DRM_RESULT.DRM_E_OUTOFMEMORY ranSC ranAR seed
    else
      let dr := env.revocationSetBuffer
      if DRM_FAILED dr then extErrorExit dr ranSC ranAR seed
      else if ¬ env.loadRevocationListOk then extErrorExit dr ranSC ranAR seed
      else extSetProperty env ranSC ranAR seed
  else extSetProperty env ranSC ranAR seed

/-- CreateSystemExt: m_poAppContext is reset to a fresh context up front,
Drm_Initialize runs, then Drm_SecureTime_GetValue selects the clock
strategy (network bootstrap on DRM_E_SECURETIME_CLOCK_NOT_SET or
DRM_E_TEE_PROVISIONING_REQUIRED, anti-rollback seeded from gettimeofday on
DRM_E_CLK_NOT_SUPPORTED, nothing on success, error otherwise), then the
store resize, revocation and property steps of extAfterClock; wallClock is
the gettimeofday reading used for the anti-rollback seed. -/
def CreateSystemExt (env : Env) (wallClock : Nat) : ExtOutcome :=
  let dr := env.drmInitialize
  if DRM_FAILED dr then extErrorExit dr false false none
  else
    let dr := env.secureTimeGetValue
    if dr = DRM_RESULT.DRM_E_SECURETIME_CLOCK_NOT_SET ∨
        dr = DRM_RESULT.DRM_E_TEE_PROVISIONING_REQUIRED then
      if env.initSecureClockRc ≠ 0 then extErrorExit dr true false none
      else extAfterClock env true false none
    else if dr = DRM_RESULT.DRM_E_CLK_NOT_SUPPORTED then
      if env.antiRollbackInitRc ≠ 0 then
        extErrorExit dr false true (some wallClock)
      else extAfterClock env false true (some wallClock)
    else if dr ≠ DRM_RESULT.DRM_SUCCESS then extErrorExit dr false false none
    else extAfterClock env false false none

/-! ## Theorems -/

/-- C1: for every call to CommitSecureStop with a non-empty session id
and a non-empty server response, the underlying
Drm_SecureStop_ProcessResponse call is made, yet the returned result is
CDMi_SUCCESS regardless of the outcome of that call - a cryptographic
validation failure is only logged and is NOT surfaced as a failure result,
contrary to the claim. -/
theorem commitSecureStop_validation_failure_returns_success
    (sessionIDLength serverResponseLength : Nat)
    (ledger : List (List Nat))
    (processResponse : List (List Nat) → DRM_RESULT × List (List Nat))
    (h1 : sessionIDLength ≠ 0) (h2 : serverResponseLength ≠ 0) :
    (CommitSecureStop sessionIDLength serverResponseLength ledger
        processResponse).cr = CDMi_RESULT.CDMi_SUCCESS ∧
    (CommitSecureStop sessionIDLength serverResponseLength ledger
        processResponse).processResponseCalled = true := by
  unfold CommitSecureStop
  simp [h1, h2]

/-- Witness for C1: at session id length 16 and response length 8, with a
ProcessResponse oracle that reports a validation failure, CommitSecureStop
still returns CDMi_SUCCESS. -/
theorem commitSecureStop_validation_failure_returns_success_witness :
    (16 : Nat) ≠ 0 ∧ (8 : Nat) ≠ 0 ∧
    (CommitSecureStop 16 8 [[1]]
        (fun l => (DRM_RESULT.DRM_E_FAIL 1, l))).cr =
      CDMi_RESULT.CDMi_SUCCESS :=
  ⟨by decide, by decide,
    (commitSecureStop_validation_failure_returns_success 16 8 [[1]]
      (fun l => (DRM_RESULT.DRM_E_FAIL 1, l)) (by decide) (by decide)).1⟩

/-- C6: an empty session id or an empty server response makes
CommitSecureStop return CDMi_S_FALSE without invoking
Drm_SecureStop_ProcessResponse, leaving the ledger unchanged. -/
theorem commitSecureStop_empty_input
    (sessionIDLength serverResponseLength : Nat)
    (ledger : List (List Nat))
    (processResponse : List (List Nat) → DRM_RESULT × List (List Nat))
    (h : sessionIDLength = 0 ∨ serverResponseLength = 0) :
    CommitSecureStop sessionIDLength serverResponseLength ledger
        processResponse =
      { cr := CDMi_RESULT.CDMi_S_FALSE, processResponseCalled := false,
        ledgerAfter := ledger } := by
  unfold CommitSecureStop
  rcases h with h | h <;> simp [h]

/-- Witness for C6: an empty session id with a non-empty response yields
CDMi_S_FALSE, no ProcessResponse call, and an unchanged ledger. -/
theorem commitSecureStop_empty_input_witness :
    ((0 : Nat) = 0 ∨ (5 : Nat) = 0) ∧
    CommitSecureStop 0 5 [[1]] (fun _ => (DRM_RESULT.DRM_SUCCESS, [])) =
      { cr := CDMi_RESULT.CDMi_S_FALSE, processResponseCalled := false,
        ledgerAfter := [[1]] } :=
  ⟨Or.inl rfl,
    commitSecureStop_empty_input 0 5 [[1]]
      (fun _ => (DRM_RESULT.DRM_SUCCESS, [])) (Or.inl rfl)⟩

/-- C2: the redirect-follow loop of InitSecureClock has no hop counter.
With a petition oracle that answers every GetSecureTimeUrl call with rc 0
and HTTP code 302, the loop has not exited after any number of iterations:
it loops forever instead of aborting after a bounded number of hops,
contrary to the claim. -/
theorem redirectLoop_unbounded (fuel i : Nat) :
    redirectLoop (fun _ => ((0 : Int), 302)) 302 i fuel = none := by
  induction fuel generalizing i with
  | zero => rfl
  | succ n ih => simp [redirectLoop, ih]

/-- C5 counterexample: DeinitializeSystem on an already-deinitialized
context (null app context) still calls Drm_Platform_Uninitialize, so it is
not the claimed no-op with no platform-resource release. -/
theorem deinitializeSystem_null_still_releases_platform :
    (DeinitializeSystem false).platformUninitializeCalled = true := by
  decide

/-- C5 amended: on an already-deinitialized context, DeinitializeSystem
performs no store maintenance and no context release and leaves the app
context null (so a second consecutive call changes no context state beyond
the first), but it does call Drm_Platform_Uninitialize on every
invocation. -/
theorem deinitializeSystem_null_context_behaviour :
    (DeinitializeSystem false).cleanupStoreCalled = false ∧
    (DeinitializeSystem false).drmUninitializeCalled = false ∧
    (DeinitializeSystem false).appContextAfter = false ∧
    (DeinitializeSystem false).platformUninitializeCalled = true ∧
    DeinitializeSystem (DeinitializeSystem true).appContextAfter =
      DeinitializeSystem false := by
  decide

/-- C8: if the backing store file is absent, CreateMediaKeySession re-runs
InitializeSystem before allocating the session handle and still returns
CDMi_SUCCESS; if the store file exists, no re-initialization occurs and
the call likewise returns CDMi_SUCCESS. -/
theorem createMediaKeySession_self_heal (storeFileExists : Bool) :
    (storeFileExists = false →
      CreateMediaKeySession storeFileExists =
        ([SessionAction.initializeSystem, SessionAction.allocateSession],
         CDMi_RESULT.CDMi_SUCCESS)) ∧
    (storeFileExists = true →
      CreateMediaKeySession storeFileExists =
        ([SessionAction.allocateSession], CDMi_RESULT.CDMi_SUCCESS)) := by
  cases storeFileExists <;> simp [CreateMediaKeySession]

/-- Witness for C8: with the store file absent, the call re-initializes
first, then allocates, and returns CDMi_SUCCESS. -/
theorem createMediaKeySession_self_heal_witness :
    CreateMediaKeySession false =
      ([SessionAction.initializeSystem, SessionAction.allocateSession],
       CDMi_RESULT.CDMi_SUCCESS) :=
  (createMediaKeySession_self_heal false).1 rfl

/-- C10 counterexample: rawSize is a uint16_t, so at a generated challenge
size of 65536 the store rawSize = ssChallengeSize truncates to 0 - the
claim that rawSize is overwritten with the required challenge size fails
there. -/
theorem getSecureStop_truncation_counterexample :
    (GetSecureStop true 0 (DRM_RESULT.DRM_SUCCESS, 65536)).copiedToRawData
        = false ∧
    (GetSecureStop true 0 (DRM_RESULT.DRM_SUCCESS, 65536)).cr =
      CDMi_RESULT.CDMi_SUCCESS ∧
    (GetSecureStop true 0 (DRM_RESULT.DRM_SUCCESS, 65536)).rawSizeAfter
        ≠ 65536 := by
  decide

/-- C10 amended: when challenge generation succeeds, a null buffer or a
rawSize below the challenge size yields no copy while rawSize is
overwritten with the challenge size truncated to 16 bits (the exact size
whenever it is below 2 to the 16) and the call returns CDMi_SUCCESS; only
a non-null buffer of at least the challenge size gets the challenge copied
out, with rawSize updated the same way. -/
theorem getSecureStop_size_query (rawDataNull : Bool) (rawSize chSize : Nat) :
    ((rawDataNull = true ∨ rawSize < chSize) →
      (GetSecureStop rawDataNull rawSize (DRM_RESULT.DRM_SUCCESS, chSize)).cr
          = CDMi_RESULT.CDMi_SUCCESS ∧
      (GetSecureStop rawDataNull rawSize
          (DRM_RESULT.DRM_SUCCESS, chSize)).copiedToRawData = false ∧
      (GetSecureStop rawDataNull rawSize
          (DRM_RESULT.DRM_SUCCESS, chSize)).copiedBytes = 0 ∧
      (GetSecureStop rawDataNull rawSize
          (DRM_RESULT.DRM_SUCCESS, chSize)).rawSizeAfter = chSize % 2 ^ 16 ∧
      (chSize < 2 ^ 16 →
        (GetSecureStop rawDataNull rawSize
            (DRM_RESULT.DRM_SUCCESS, chSize)).rawSizeAfter = chSize)) ∧
    ((rawDataNull = false ∧ chSize ≤ rawSize) →
      (GetSecureStop rawDataNull rawSize (DRM_RESULT.DRM_SUCCESS, chSize)).cr
          = CDMi_RESULT.CDMi_SUCCESS ∧
      (GetSecureStop rawDataNull rawSize
          (DRM_RESULT.DRM_SUCCESS, chSize)).copiedToRawData = true ∧
      (GetSecureStop rawDataNull rawSize
          (DRM_RESULT.DRM_SUCCESS, chSize)).copiedBytes = chSize ∧
      (GetSecureStop rawDataNull rawSize
          (DRM_RESULT.DRM_SUCCESS, chSize)).rawSizeAfter = chSize % 2 ^ 16) := by
  constructor
  · intro h
    have hcond : ¬ (¬ rawDataNull = true ∧ chSize ≤ rawSize) := by
      rcases h with h | h
      · exact fun hc => hc.1 h
      · exact fun hc => absurd hc.2 (Nat.not_le.mpr h)
    have he : GetSecureStop rawDataNull rawSize
        (DRM_RESULT.DRM_SUCCESS, chSize) =
      { cr := CDMi_RESULT.CDMi_SUCCESS, copiedToRawData := false,
        copiedBytes := 0, rawSizeAfter := chSize % 2 ^ 16 } := by
      simp only [GetSecureStop]
      rw [if_neg (by simp), if_neg hcond]
    rw [he]
    exact ⟨rfl, rfl, rfl, rfl, fun hlt => Nat.mod_eq_of_lt hlt⟩
  · rintro ⟨hn, hle⟩
    have hcond : (¬ rawDataNull = true ∧ chSize ≤ rawSize) :=
      ⟨by simp [hn], hle⟩
    have he : GetSecureStop rawDataNull rawSize
        (DRM_RESULT.DRM_SUCCESS, chSize) =
      { cr := CDMi_RESULT.CDMi_SUCCESS, copiedToRawData := true,
        copiedBytes := chSize, rawSizeAfter := chSize % 2 ^ 16 } := by
      simp only [GetSecureStop]
      rw [if_neg (by simp), if_pos hcond]
    rw [he]
    exact ⟨rfl, rfl, rfl, rfl⟩

/-- Witness for C10: a null buffer with a challenge size of 10 yields no
copy and rawSize set to 10. -/
theorem getSecureStop_size_query_witness :
    (true = true ∨ (0 : Nat) < 10) ∧
    (GetSecureStop true 0 (DRM_RESULT.DRM_SUCCESS, 10)).copiedToRawData =
      false :=
  ⟨Or.inl rfl, ((getSecureStop_size_query true 0 10).1 (Or.inl rfl)).2.1⟩

/-- Offsets written by the copy loop: when every enumerated id is
DRM_ID_SIZE bytes, the loop started at entry index i writes exactly the
offsets i * DRM_ID_SIZE .. (i + count) * DRM_ID_SIZE - 1, in order. -/
theorem copyIds_map_fst (ids : List (List Nat)) (i : Nat)
    (h : ∀ id ∈ ids, id.length = DRM_ID_SIZE) :
    (copyIds i ids).map Prod.fst =
      (List.range (ids.length * DRM_ID_SIZE)).map
        (fun k => i * DRM_ID_SIZE + k) := by
  induction ids generalizing i with
  | nil => simp [copyIds]
  | cons id rest ih =>
    have hid : id.length = DRM_ID_SIZE := h id (by simp)
    have hrest : ∀ x ∈ rest, x.length = DRM_ID_SIZE :=
      fun x hx => h x (by simp [hx])
    have hsplit : (rest.length + 1) * DRM_ID_SIZE =
        DRM_ID_SIZE + rest.length * DRM_ID_SIZE := by ring
    rw [copyIds, List.map_append, List.map_map, ih (i + 1) hrest,
      List.length_cons, hsplit, List.range_add, List.map_append,
      List.map_map]
    congr 1
    · have : (Prod.fst ∘ fun q : Nat × Nat => (i * DRM_ID_SIZE + q.1, q.2)) =
          (fun k => i * DRM_ID_SIZE + k) ∘ Prod.fst := by
        funext q; rfl
      rw [this, ← List.map_map, List.enum_map_fst, hid]
    · apply List.map_congr_left
      intro k _
      simp only [Function.comp_apply]
      ring

/-- C9: GetSecureStopIds never consults idsLength (any two values of it
give the same outcome), and on a successful enumeration of count ids of
DRM_ID_SIZE bytes each it returns CDMi_SUCCESS and writes exactly the
byte offsets 0 .. count * DRM_ID_SIZE - 1 of the ids buffer, in order; in
particular, whenever idsLength < count * DRM_ID_SIZE some write lands at
an offset of at least idsLength (outside the buffer bounds supplied by
the caller). -/
theorem getSecureStopIds_unguarded_copy (l1 l2 : Nat) (dr : DRM_RESULT)
    (ids : List (List Nat)) :
    GetSecureStopIds l1 (dr, ids) = GetSecureStopIds l2 (dr, ids) ∧
    ((dr = DRM_RESULT.DRM_SUCCESS ∨ dr = DRM_RESULT.DRM_E_NOMORE) →
      (∀ id ∈ ids, id.length = DRM_ID_SIZE) →
      (GetSecureStopIds l1 (dr, ids)).cr = CDMi_RESULT.CDMi_SUCCESS ∧
      (GetSecureStopIds l1 (dr, ids)).count = ids.length ∧
      ((GetSecureStopIds l1 (dr, ids)).writes.map Prod.fst =
        List.range (ids.length * DRM_ID_SIZE)) ∧
      (l1 < ids.length * DRM_ID_SIZE →
        ∃ p ∈ (GetSecureStopIds l1 (dr, ids)).writes, l1 ≤ p.1)) := by
  refine ⟨rfl, fun hdr hlen => ?_⟩
  have hcond : ¬ (dr ≠ DRM_RESULT.DRM_SUCCESS ∧ dr ≠ DRM_RESULT.DRM_E_NOMORE) := by
    rcases hdr with h | h <;> exact fun hc => by
      first
      | exact hc.1 h
      | exact hc.2 h
  have he : GetSecureStopIds l1 (dr, ids) =
      { cr := CDMi_RESULT.CDMi_SUCCESS, count := ids.length,
        writes := copyIds 0 ids } := by
    simp only [GetSecureStopIds]
    rw [if_neg hcond]
  rw [he]
  have hfst : (copyIds 0 ids).map Prod.fst =
      List.range (ids.length * DRM_ID_SIZE) := by
    rw [copyIds_map_fst ids 0 hlen]
    simp
  refine ⟨rfl, rfl, hfst, fun hlt => ?_⟩
  have hmem : l1 ∈ (copyIds 0 ids).map Prod.fst := by
    rw [hfst]
    exact List.mem_range.mpr hlt
  rcases List.mem_map.mp hmem with ⟨p, hp, hpe⟩
  exact ⟨p, hp, le_of_eq hpe.symm⟩

/-- Witness for C9: a successful enumeration of two 16-byte ids with
idsLength 0 still writes offsets 0 .. 31, and changing idsLength to 5
changes nothing about the outcome. -/
theorem getSecureStopIds_unguarded_copy_witness :
    (GetSecureStopIds 0 (DRM_RESULT.DRM_SUCCESS,
        [List.replicate 16 1, List.replicate 16 2])).writes.map Prod.fst =
      List.range 32 ∧
    GetSecureStopIds 0 (DRM_RESULT.DRM_SUCCESS,
        [List.replicate 16 1, List.replicate 16 2]) =
      GetSecureStopIds 5 (DRM_RESULT.DRM_SUCCESS,
        [List.replicate 16 1, List.replicate 16 2]) := by
  have h := getSecureStopIds_unguarded_copy 0 5 DRM_RESULT.DRM_SUCCESS
    [List.replicate 16 1, List.replicate 16 2]
  refine ⟨?_, h.1⟩
  have h2 := (h.2 (Or.inl rfl) (by decide)).2.2.1
  simpa using h2

/-- The ErrorExit label either fails with a dead context or succeeds with
a live one. -/
theorem extErrorExit_cases (dr : DRM_RESULT) (a b : Bool) (s : Option Nat) :
    ((extErrorExit dr a b s).cr = CDMi_RESULT.CDMi_SUCCESS ∧
      (extErrorExit dr a b s).appContext = true) ∨
    ((extErrorExit dr a b s).cr = CDMi_RESULT.CDMi_S_FALSE ∧
      (extErrorExit dr a b s).appContext = false) := by
  unfold extErrorExit
  split
  · exact Or.inr ⟨rfl, rfl⟩
  · exact Or.inl ⟨rfl, rfl⟩

/-- A non-success result at the ErrorExit label comes with a dead context. -/
theorem extErrorExit_failure (dr : DRM_RESULT) (a b : Bool) (s : Option Nat) :
    (extErrorExit dr a b s).cr ≠ CDMi_RESULT.CDMi_SUCCESS →
    (extErrorExit dr a b s).appContext = false := by
  rcases extErrorExit_cases dr a b s with ⟨h1, _⟩ | ⟨_, h2⟩
  · exact fun h => absurd h1 h
  · exact fun _ => h2

/-- C4: whenever CreateSystemExt returns a result other than CDMi_SUCCESS,
the app context m_poAppContext has been reset back to null, for every
combination of platform, store, clock-bootstrap, revocation and
policy-setting outcomes. -/
theorem createSystemExt_failure_resets_context (env : Env) (w : Nat)
    (h : (CreateSystemExt env w).cr ≠ CDMi_RESULT.CDMi_SUCCESS) :
    (CreateSystemExt env w).appContext = false := by
  revert h
  simp only [CreateSystemExt, extAfterClock, extSetProperty]
  repeat' first
  | exact extErrorExit_failure _ _ _ _
  | split

/-- Environment in which Drm_Initialize itself fails. -/
def envInitFails : Env :=
  { drmInitialize := DRM_RESULT.DRM_E_FAIL 7,
    secureTimeGetValue := DRM_RESULT.DRM_SUCCESS,
    initSecureClockRc := 0, antiRollbackInitRc := 0,
    resizeStore := DRM_RESULT.DRM_SUCCESS,
    revocationSupported := false, revBufferAllocOk := true,
    revocationSetBuffer := DRM_RESULT.DRM_SUCCESS,
    loadRevocationListOk := true,
    contentSetProperty := DRM_RESULT.DRM_SUCCESS }

/-- Witness for C4: with a failing Drm_Initialize the call returns a
non-success result and the app context ends up null. -/
theorem createSystemExt_failure_resets_context_witness :
    (CreateSystemExt envInitFails 0).cr ≠ CDMi_RESULT.CDMi_SUCCESS ∧
    (CreateSystemExt envInitFails 0).appContext = false :=
  ⟨by decide, createSystemExt_failure_resets_context envInitFails 0 (by decide)⟩

/-- Environment of the C3 counterexample: every DRM call succeeds, the
revocation list file exists, but applying it fails, so LoadRevocationList
returns false. -/
def envRevocationFails : Env :=
  { drmInitialize := DRM_RESULT.DRM_SUCCESS,
    secureTimeGetValue := DRM_RESULT.DRM_SUCCESS,
    initSecureClockRc := 0, antiRollbackInitRc := 0,
    resizeStore := DRM_RESULT.DRM_SUCCESS,
    revocationSupported := true, revBufferAllocOk := true,
    revocationSetBuffer := DRM_RESULT.DRM_SUCCESS,
    loadRevocationListOk :=
      LoadRevocationList true true (DRM_RESULT.DRM_E_FAIL 1),
    contentSetProperty := DRM_RESULT.DRM_SUCCESS }

/-- C3: when the revocation-list file exists but Drm_Revocation_StorePackage
fails, LoadRevocationList returns false, yet CreateSystemExt jumps to
ErrorExit while dr still holds the non-failed Drm_Revocation_SetBuffer
result, so it returns CDMi_SUCCESS with the context left live - the
failure is not reported to the caller, contrary to the claim. -/
theorem createSystemExt_revocation_failure_reports_success :
    LoadRevocationList true true (DRM_RESULT.DRM_E_FAIL 1) = false ∧
    (CreateSystemExt envRevocationFails 0).cr = CDMi_RESULT.CDMi_SUCCESS ∧
    (CreateSystemExt envRevocationFails 0).appContext = true := by
  decide

/-- The ErrorExit label passes the clock-strategy observations through. -/
theorem extErrorExit_flags (dr : DRM_RESULT) (a b : Bool) (s : Option Nat) :
    (extErrorExit dr a b s).ranSecureClockBootstrap = a ∧
    (extErrorExit dr a b s).ranAntiRollback = b ∧
    (extErrorExit dr a b s).antiRollbackSeed = s := by
  unfold extErrorExit
  split
  · exact ⟨rfl, rfl, rfl⟩
  · exact ⟨rfl, rfl, rfl⟩

/-- The steps after the clock section pass the clock-strategy observations
through unchanged. -/
theorem extAfterClock_flags (env : Env) (a b : Bool) (s : Option Nat) :
    (extAfterClock env a b s).ranSecureClockBootstrap = a ∧
    (extAfterClock env a b s).ranAntiRollback = b ∧
    (extAfterClock env a b s).antiRollbackSeed = s := by
  simp only [extAfterClock, extSetProperty]
  repeat' first
  | exact extErrorExit_flags _ _ _ _
  | split

theorem extErrorExit_ranSC (dr : DRM_RESULT) (a b : Bool) (s : Option Nat) :
    (extErrorExit dr a b s).ranSecureClockBootstrap = a :=
  (extErrorExit_flags dr a b s).1

theorem extErrorExit_ranAR (dr : DRM_RESULT) (a b : Bool) (s : Option Nat) :
    (extErrorExit dr a b s).ranAntiRollback = b :=
  (extErrorExit_flags dr a b s).2.1

theorem extErrorExit_seed (dr : DRM_RESULT) (a b : Bool) (s : Option Nat) :
    (extErrorExit dr a b s).antiRollbackSeed = s :=
  (extErrorExit_flags dr a b s).2.2

theorem extAfterClock_ranSC (env : Env) (a b : Bool) (s : Option Nat) :
    (extAfterClock env a b s).ranSecureClockBootstrap = a :=
  (extAfterClock_flags env a b s).1

theorem extAfterClock_ranAR (env : Env) (a b : Bool) (s : Option Nat) :
    (extAfterClock env a b s).ranAntiRollback = b :=
  (extAfterClock_flags env a b s).2.1

theorem extAfterClock_seed (env : Env) (a b : Bool) (s : Option Nat) :
    (extAfterClock env a b s).antiRollbackSeed = s :=
  (extAfterClock_flags env a b s).2.2

/-- C7: with Drm_Initialize succeeding, the clock strategy selected by
CreateSystemExt follows the stored-clock query: a DRM_E_SECURETIME_CLOCK_NOT_SET
or DRM_E_TEE_PROVISIONING_REQUIRED answer runs the network bootstrap
InitSecureClock and not the anti-rollback fallback; the anti-rollback
fallback runs if and only if the query answers DRM_E_CLK_NOT_SUPPORTED,
and it is then seeded with the current gettimeofday wall-clock reading; a
successful query runs neither. -/
theorem createSystemExt_clock_strategy (env : Env) (w : Nat)
    (hinit : env.drmInitialize = DRM_RESULT.DRM_SUCCESS) :
    ((env.secureTimeGetValue = DRM_RESULT.DRM_E_SECURETIME_CLOCK_NOT_SET ∨
      env.secureTimeGetValue = DRM_RESULT.DRM_E_TEE_PROVISIONING_REQUIRED) →
      (CreateSystemExt env w).ranSecureClockBootstrap = true ∧
      (CreateSystemExt env w).ranAntiRollback = false) ∧
    ((CreateSystemExt env w).ranAntiRollback = true ↔
      env.secureTimeGetValue = DRM_RESULT.DRM_E_CLK_NOT_SUPPORTED) ∧
    (env.secureTimeGetValue = DRM_RESULT.DRM_E_CLK_NOT_SUPPORTED →
      (CreateSystemExt env w).antiRollbackSeed = some w) ∧
    (env.secureTimeGetValue = DRM_RESULT.DRM_SUCCESS →
      (CreateSystemExt env w).ranSecureClockBootstrap = false ∧
      (CreateSystemExt env w).ranAntiRollback = false) := by
  have hni : DRM_FAILED env.drmInitialize = false := by
    rw [hinit]; rfl
  rcases hgv : env.secureTimeGetValue with _ | _ | _ | _ | _ | _ | code <;>
    simp only [CreateSystemExt, hni, hgv] <;>
    by_cases h1 : env.initSecureClockRc = 0 <;>
    by_cases h2 : env.antiRollbackInitRc = 0 <;>
    simp [h1, h2, extErrorExit_ranSC, extErrorExit_ranAR, extErrorExit_seed,
      extAfterClock_ranSC, extAfterClock_ranAR, extAfterClock_seed]

/-- Environment in which the stored-clock query reports the secure-clock
mechanism categorically unsupported. -/
def envClockUnsupported : Env :=
  { drmInitialize := DRM_RESULT.DRM_SUCCESS,
    secureTimeGetValue := DRM_RESULT.DRM_E_CLK_NOT_SUPPORTED,
    initSecureClockRc := 0, antiRollbackInitRc := 0,
    resizeStore := DRM_RESULT.DRM_SUCCESS,
    revocationSupported := false, revBufferAllocOk := true,
    revocationSetBuffer := DRM_RESULT.DRM_SUCCESS,
    loadRevocationListOk := true,
    contentSetProperty := DRM_RESULT.DRM_SUCCESS }

/-- Witness for C7: with a DRM_E_CLK_NOT_SUPPORTED clock query, the
anti-rollback fallback runs, seeded with the wall-clock value 42. -/
theorem createSystemExt_clock_strategy_witness :
    envClockUnsupported.drmInitialize = DRM_RESULT.DRM_SUCCESS ∧
    (CreateSystemExt envClockUnsupported 42).ranAntiRollback = true ∧
    (CreateSystemExt envClockUnsupported 42).antiRollbackSeed = some 42 :=
  ⟨rfl,
    (createSystemExt_clock_strategy envClockUnsupported 42 rfl).2.1.mpr rfl,
    (createSystemExt_clock_strategy envClockUnsupported 42 rfl).2.2.1 rfl⟩

end PlayReadyModel
